import Mathlib

/-!
Shallow embedding of `src/egui_plot/src/items/kline_elem.rs`.

Scalar values (`f64` in the source) are modelled as rationals `ℚ`; the
logarithm-based decimal-precision computation of `default_values_format`
is modelled over the reals `ℝ`.  External collaborators (the plot
transform, the highlight-color adjustment, the `point_at` helper of the
`RectElement` trait) are not part of `src/`; they are modelled from the
spec as abstract function parameters or structures of abstract functions.
-/

namespace KlineElem

/-- Modelled from the spec: the orientation enum of the plot items module
(`super::Orientation`), `{Vertical, Horizontal}`, defaulting to Vertical. -/
inductive Orientation where
  | Horizontal : Orientation
  | Vertical : Orientation
deriving DecidableEq, Repr

/-- Modelled from the spec: `Orientation::default()` is `Vertical`. -/
def Orientation.default : Orientation := Orientation.Vertical

/-- Modelled from the spec: a logical plot point `(x, y)` (`PlotPoint`). -/
structure PlotPoint where
  x : ℚ
  y : ℚ
deriving DecidableEq, Repr

/-- Modelled from the spec: a screen position (`egui::Pos2`). -/
structure Pos2 where
  x : ℚ
  y : ℚ
deriving DecidableEq, Repr

/-- Modelled from the spec: a screen rectangle (`egui::Rect`), as its two
corner positions. -/
structure Rect where
  min : Pos2
  max : Pos2
deriving DecidableEq, Repr

/-- Color32 of egui, four channels. -/
structure Color32 where
  r : ℕ
  g : ℕ
  b : ℕ
  a : ℕ
deriving DecidableEq, Repr

/-- `Color32::TRANSPARENT`. -/
def Color32.TRANSPARENT : Color32 := ⟨0, 0, 0, 0⟩

/-- egui `Stroke`: line width and color. -/
structure Stroke where
  width : ℚ
  color : Color32
deriving DecidableEq, Repr

/-- `Stroke::new(width, color)`. -/
def Stroke.new (width : ℚ) (color : Color32) : Stroke := ⟨width, color⟩

/-- egui `CornerRadius`, modelled as a single radius value. -/
abbrev CornerRadius := ℚ

/-- `CornerRadius::ZERO`. -/
def CornerRadius.ZERO : CornerRadius := 0

/-- egui `StrokeKind`. -/
inductive StrokeKind where
  | Inside : StrokeKind
  | Middle : StrokeKind
  | Outside : StrokeKind
deriving DecidableEq, Repr

/-- The drawable primitives produced by `add_shapes`: a rectangle
(`Shape::Rect(RectShape::new(rect, corner_radius, fill, stroke, kind))`)
or a line segment (`Shape::line_segment([p1, p2], stroke)`). -/
inductive Shape where
  | rect (r : Rect) (corner_radius : CornerRadius) (fill : Color32)
      (stroke : Stroke) (kind : StrokeKind) : Shape
  | line_segment (p1 p2 : Pos2) (stroke : Stroke) : Shape
deriving DecidableEq, Repr

/-- Modelled from the spec: the coordinate transform (`PlotTransform`) is an
external collaborator; only the two capabilities used by `add_shapes` are
kept, as abstract functions: mapping a logical point to a screen position
and mapping two logical corner values to a screen rectangle. -/
structure PlotTransform where
  position_from_point : PlotPoint → Pos2
  rect_from_values : PlotPoint → PlotPoint → Rect

/-- `KlineData` (kline_elem.rs lines 10-29): the five scalar values of one
box, fields `o`, `h`, `l`, `c`, `v`. -/
structure KlineData where
  o : ℚ
  h : ℚ
  l : ℚ
  c : ℚ
  v : ℚ
deriving DecidableEq, Repr

/-- `KlineData::new(o, h, l, c, v)` (lines 32-46): the struct literal lists
the fields in the scrambled order `l, o, v, c, h`, each bound to the
identically named parameter. -/
def KlineData.new (o h l c v : ℚ) : KlineData :=
  { l := l, o := o, v := v, c := c, h := h }

/-- `KlinePlotPoint` (lines 54-78): one positioned, styled glyph. -/
structure KlinePlotPoint where
  name : String
  orientation : Orientation
  argument : ℚ
  spread : KlineData
  box_width : ℚ
  whisker_width : ℚ
  stroke : Stroke
  fill : Color32
deriving DecidableEq, Repr

/-- `KlinePlotPoint::new(argument, spread)` (lines 84-95). -/
def KlinePlotPoint.new (argument : ℚ) (spread : KlineData) : KlinePlotPoint :=
  { argument := argument
    orientation := Orientation.default
    name := ""
    spread := spread
    box_width := 1/4
    whisker_width := 3/20
    stroke := Stroke.new 1 Color32.TRANSPARENT
    fill := Color32.TRANSPARENT }

/-- Fluent setter `KlinePlotPoint::name` (lines 100-103); named `set_name`
here because the field projection already uses the source name. -/
def KlinePlotPoint.set_name (self : KlinePlotPoint) (name : String) : KlinePlotPoint :=
  { self with name := name }

/-- Fluent setter `KlinePlotPoint::stroke` (lines 107-110). -/
def KlinePlotPoint.set_stroke (self : KlinePlotPoint) (stroke : Stroke) : KlinePlotPoint :=
  { self with stroke := stroke }

/-- Fluent setter `KlinePlotPoint::fill` (lines 114-117). -/
def KlinePlotPoint.set_fill (self : KlinePlotPoint) (color : Color32) : KlinePlotPoint :=
  { self with fill := color }

/-- Fluent setter `KlinePlotPoint::box_width` (lines 121-124). -/
def KlinePlotPoint.set_box_width (self : KlinePlotPoint) (width : ℚ) : KlinePlotPoint :=
  { self with box_width := width }

/-- Fluent setter `KlinePlotPoint::whisker_width` (lines 128-131). -/
def KlinePlotPoint.set_whisker_width (self : KlinePlotPoint) (width : ℚ) : KlinePlotPoint :=
  { self with whisker_width := width }

/-- Fluent setter `KlinePlotPoint::vertical` (lines 135-138). -/
def KlinePlotPoint.vertical (self : KlinePlotPoint) : KlinePlotPoint :=
  { self with orientation := Orientation.Vertical }

/-- Fluent setter `KlinePlotPoint::horizontal` (lines 142-145). -/
def KlinePlotPoint.horizontal (self : KlinePlotPoint) : KlinePlotPoint :=
  { self with orientation := Orientation.Horizontal }

/-- Modelled from the spec: the `point_at(argument, value)` helper of the
`RectElement` trait (not under `src/`): the argument axis is X when the
orientation is Vertical and Y when it is Horizontal. -/
def KlinePlotPoint.point_at (self : KlinePlotPoint) (argument value : ℚ) : PlotPoint :=
  match self.orientation with
  | Orientation.Horizontal => ⟨value, argument⟩
  | Orientation.Vertical => ⟨argument, value⟩

/-- The `line_between` closure of `add_shapes` (lines 172-180): a line
segment between the screen images of two logical points, with the
effective stroke. -/
def line_between (transform : PlotTransform) (stroke : Stroke)
    (v1 v2 : PlotPoint) : Shape :=
  Shape.line_segment (transform.position_from_point v1)
    (transform.position_from_point v2) stroke

/-- Lines 153-157 of `add_shapes`: the effective `(stroke, fill)` pair,
highlight-adjusted when `highlighted`.  `highlighted_color` is an external
collaborator, modelled from the spec as the abstract parameter `hc`. -/
def KlinePlotPoint.effective_style (self : KlinePlotPoint)
    (hc : Stroke × Color32 → Stroke × Color32) (highlighted : Bool) :
    Stroke × Color32 :=
  if highlighted then hc (self.stroke, self.fill) else (self.stroke, self.fill)

/-- `KlinePlotPoint::add_shapes` (lines 147-228), with `highlighted_color`
abstracted as `hc` and the `&mut Vec<Shape>` out-parameter as a list the
new shapes are appended to. -/
def KlinePlotPoint.add_shapes (self : KlinePlotPoint)
    (hc : Stroke × Color32 → Stroke × Color32)
    (transform : PlotTransform) (highlighted : Bool)
    (shapes : List Shape) : List Shape :=
  let sf := self.effective_style hc highlighted
  let stroke := sf.1
  let fill := sf.2
  let rect := transform.rect_from_values
    (self.point_at (self.argument - self.box_width / 2) self.spread.o)
    (self.point_at (self.argument + self.box_width / 2) self.spread.c)
  let rect := Shape.rect rect CornerRadius.ZERO fill stroke StrokeKind.Inside
  let shapes := shapes ++ [rect]
  let v := line_between transform stroke
    (self.point_at (self.argument - self.box_width / 2) self.spread.v)
    (self.point_at (self.argument + self.box_width / 2) self.spread.v)
  let shapes := shapes ++ [v]
  let shapes :=
    if self.spread.h > self.spread.c then
      let shapes := shapes ++ [line_between transform stroke
        (self.point_at self.argument self.spread.c)
        (self.point_at self.argument self.spread.h)]
      if self.box_width > 0 then
        shapes ++ [line_between transform stroke
          (self.point_at (self.argument - self.whisker_width / 2) self.spread.h)
          (self.point_at (self.argument + self.whisker_width / 2) self.spread.h)]
      else shapes
    else shapes
  let shapes :=
    if self.spread.l < self.spread.o then
      let shapes := shapes ++ [line_between transform stroke
        (self.point_at self.argument self.spread.o)
        (self.point_at self.argument self.spread.l)]
      if self.box_width > 0 then
        shapes ++ [line_between transform stroke
          (self.point_at (self.argument - self.whisker_width / 2) self.spread.l)
          (self.point_at (self.argument + self.whisker_width / 2) self.spread.l)]
      else shapes
    else shapes
  shapes

/-- The box rectangle of lines 159-170, as a standalone value. -/
def KlinePlotPoint.box_rect_shape (self : KlinePlotPoint)
    (hc : Stroke × Color32 → Stroke × Color32)
    (transform : PlotTransform) (highlighted : Bool) : Shape :=
  Shape.rect
    (transform.rect_from_values
      (self.point_at (self.argument - self.box_width / 2) self.spread.o)
      (self.point_at (self.argument + self.box_width / 2) self.spread.c))
    CornerRadius.ZERO (self.effective_style hc highlighted).2
    (self.effective_style hc highlighted).1 StrokeKind.Inside

/-- The middle line of lines 181-185, as a standalone value. -/
def KlinePlotPoint.center_line_shape (self : KlinePlotPoint)
    (hc : Stroke × Color32 → Stroke × Color32)
    (transform : PlotTransform) (highlighted : Bool) : Shape :=
  line_between transform (self.effective_style hc highlighted).1
    (self.point_at (self.argument - self.box_width / 2) self.spread.v)
    (self.point_at (self.argument + self.box_width / 2) self.spread.v)

/-- The shapes pushed by the upper-whisker block, lines 187-206. -/
def KlinePlotPoint.upper_whisker_shapes (self : KlinePlotPoint)
    (hc : Stroke × Color32 → Stroke × Color32)
    (transform : PlotTransform) (highlighted : Bool) : List Shape :=
  if self.spread.h > self.spread.c then
    [line_between transform (self.effective_style hc highlighted).1
      (self.point_at self.argument self.spread.c)
      (self.point_at self.argument self.spread.h)]
    ++ (if self.box_width > 0 then
        [line_between transform (self.effective_style hc highlighted).1
          (self.point_at (self.argument - self.whisker_width / 2) self.spread.h)
          (self.point_at (self.argument + self.whisker_width / 2) self.spread.h)]
      else [])
  else []

/-- The shapes pushed by the lower-whisker block, lines 208-227. -/
def KlinePlotPoint.lower_whisker_shapes (self : KlinePlotPoint)
    (hc : Stroke × Color32 → Stroke × Color32)
    (transform : PlotTransform) (highlighted : Bool) : List Shape :=
  if self.spread.l < self.spread.o then
    [line_between transform (self.effective_style hc highlighted).1
      (self.point_at self.argument self.spread.o)
      (self.point_at self.argument self.spread.l)]
    ++ (if self.box_width > 0 then
        [line_between transform (self.effective_style hc highlighted).1
          (self.point_at (self.argument - self.whisker_width / 2) self.spread.l)
          (self.point_at (self.argument + self.whisker_width / 2) self.spread.l)]
      else [])
  else []

/-- `RectElement::bounds_min` for `KlinePlotPoint` (lines 251-255). -/
def KlinePlotPoint.bounds_min (self : KlinePlotPoint) : PlotPoint :=
  let argument := self.argument - max self.box_width self.whisker_width / 2
  let value := self.spread.l
  self.point_at argument value

/-- `RectElement::bounds_max` for `KlinePlotPoint` (lines 257-261). -/
def KlinePlotPoint.bounds_max (self : KlinePlotPoint) : PlotPoint :=
  let argument := self.argument + max self.box_width self.whisker_width / 2
  let value := self.spread.h
  self.point_at argument value

/-- `RectElement::values_with_ruler` for `KlinePlotPoint` (lines 263-271). -/
def KlinePlotPoint.values_with_ruler (self : KlinePlotPoint) : List PlotPoint :=
  let v := self.point_at self.argument self.spread.v
  let q1 := self.point_at self.argument self.spread.o
  let q3 := self.point_at self.argument self.spread.c
  let upper := self.point_at self.argument self.spread.h
  let lower := self.point_at self.argument self.spread.l
  [v, q1, q3, upper, lower]

/-- `RectElement::corner_value` for `KlinePlotPoint` (lines 277-279). -/
def KlinePlotPoint.corner_value (self : KlinePlotPoint) : PlotPoint :=
  self.point_at self.argument self.spread.h

/-- Lines 283-286 of `default_values_format`: the component of the
transform's `dvalue_dpos()` scale pair selected by orientation, index 0
for Horizontal and index 1 for Vertical. -/
def KlinePlotPoint.value_axis_scale (self : KlinePlotPoint)
    (dvalue_dpos : ℝ × ℝ) : ℝ :=
  match self.orientation with
  | Orientation.Horizontal => dvalue_dpos.1
  | Orientation.Vertical => dvalue_dpos.2

/-- Lines 282-289 of `default_values_format`: the decimal precision
`((-scale.abs().log10()).ceil().at_least(0.0) as usize).at_most(6).at_least(1)`,
with the float pipeline modelled over the reals: `at_least` is `max`,
`at_most` is `min`, `ceil` is the integer ceiling. -/
noncomputable def KlinePlotPoint.default_values_format_decimals
    (self : KlinePlotPoint) (dvalue_dpos : ℝ × ℝ) : ℤ :=
  let scale := self.value_axis_scale dvalue_dpos
  max 1 (min 6 (max 0 ⌈-Real.logb 10 |scale|⌉))

/-- The spec's formula for the precision: `clamp(x, 1, 6)`. -/
def clampPrecision (x : ℤ) : ℤ := min (max x 1) 6

/-- A concrete transform whose abstract capabilities are the identity on
coordinates, used to evaluate `add_shapes` on concrete elements. -/
def idTransform : PlotTransform :=
  ⟨fun p => ⟨p.x, p.y⟩, fun a b => ⟨⟨a.x, a.y⟩, ⟨b.x, b.y⟩⟩⟩

/-- A concrete highlight-color adjustment: the identity. -/
def idHighlight : Stroke × Color32 → Stroke × Color32 := fun sf => sf

/-- The spec's worked example: spread `{o:10, h:15, l:20, c:25, v:30}`,
argument 5, box width 2, whisker width 1, default orientation Vertical. -/
def exampleElem : KlinePlotPoint :=
  ((KlinePlotPoint.new 5 (KlineData.new 10 15 20 25 30)).set_box_width 2).set_whisker_width 1

/-- An element with `h > c` and zero box width: spread
`{o:0, h:3, l:0, c:1, v:2}` at argument 0, box width 0. -/
def c5Elem : KlinePlotPoint :=
  (KlinePlotPoint.new 0 (KlineData.new 0 3 0 1 2)).set_box_width 0

/-- `add_shapes` appends, after the incoming list, exactly the box
rectangle, the middle line, the upper-whisker block and the lower-whisker
block, in this order. -/
theorem add_shapes_eq (self : KlinePlotPoint)
    (hc : Stroke × Color32 → Stroke × Color32)
    (t : PlotTransform) (hl : Bool) (init : List Shape) :
    self.add_shapes hc t hl init
      = init ++ [self.box_rect_shape hc t hl, self.center_line_shape hc t hl]
          ++ self.upper_whisker_shapes hc t hl
          ++ self.lower_whisker_shapes hc t hl := by
  simp only [KlinePlotPoint.add_shapes, KlinePlotPoint.box_rect_shape,
    KlinePlotPoint.center_line_shape, KlinePlotPoint.upper_whisker_shapes,
    KlinePlotPoint.lower_whisker_shapes]
  split_ifs <;> simp [List.append_assoc]

/-- Claim C1, counterexample: for the spec's example element (spread
`{o:10, h:15, l:20, c:25, v:30}`, argument 5, box width 2), the second
primitive appended by `add_shapes` is not a line at value 20 (field `l`);
it is the line at value 30 (field `v`). -/
theorem kline_C1_counterexample :
    ((exampleElem.add_shapes idHighlight idTransform false [])[1]?
        = some (Shape.line_segment ⟨4, 20⟩ ⟨6, 20⟩ (Stroke.new 1 Color32.TRANSPARENT))) = False
      ∧ (exampleElem.add_shapes idHighlight idTransform false [])[1]?
        = some (Shape.line_segment ⟨4, 30⟩ ⟨6, 30⟩ (Stroke.new 1 Color32.TRANSPARENT)) := by
  refine ⟨eq_false ?_, ?_⟩ <;>
  · rw [add_shapes_eq]
    norm_num [KlinePlotPoint.center_line_shape, KlinePlotPoint.upper_whisker_shapes,
      KlinePlotPoint.lower_whisker_shapes, KlinePlotPoint.effective_style, line_between,
      KlinePlotPoint.point_at, exampleElem, KlinePlotPoint.new, KlineData.new,
      KlinePlotPoint.set_box_width, KlinePlotPoint.set_whisker_width, idTransform,
      idHighlight, Stroke.new, Color32.TRANSPARENT, Orientation.default]

/-- Claim C1 (amended): for every element, highlight adjustment, transform,
highlighted flag and incoming list, the second primitive appended by
`add_shapes` is the middle line: a segment whose two logical endpoints are
`point_at (argument - box_width/2, spread.v)` and
`point_at (argument + box_width/2, spread.v)` — the value drawn is the
fifth spread field `v`, not the third field `l`. -/
theorem kline_C1_center_line (self : KlinePlotPoint)
    (hc : Stroke × Color32 → Stroke × Color32)
    (t : PlotTransform) (hl : Bool) (init : List Shape) :
    (self.add_shapes hc t hl init)[init.length + 1]?
      = some (Shape.line_segment
          (t.position_from_point
            (self.point_at (self.argument - self.box_width / 2) self.spread.v))
          (t.position_from_point
            (self.point_at (self.argument + self.box_width / 2) self.spread.v))
          (self.effective_style hc hl).1) := by
  rw [add_shapes_eq, List.append_assoc, List.append_assoc,
    List.getElem?_append_right (Nat.le_add_right init.length 1)]
  simp [KlinePlotPoint.center_line_shape, line_between]

/-- Claim C2, counterexample: for the spec's example element, `v > c`
(30 > 25) holds, yet neither the upper-whisker line from `point_at (5, 25)`
to `point_at (5, 30)` nor its cap is appended: only 2 primitives appear,
because the code tests `h > c` (15 > 25 is false). -/
theorem kline_C2_counterexample :
    exampleElem.spread.c < exampleElem.spread.v
      ∧ ((Shape.line_segment ⟨5, 25⟩ ⟨5, 30⟩ (Stroke.new 1 Color32.TRANSPARENT))
           ∈ exampleElem.add_shapes idHighlight idTransform false []) = False
      ∧ ((Shape.line_segment ⟨9/2, 30⟩ ⟨11/2, 30⟩ (Stroke.new 1 Color32.TRANSPARENT))
           ∈ exampleElem.add_shapes idHighlight idTransform false []) = False
      ∧ (exampleElem.add_shapes idHighlight idTransform false []).length = 2 := by
  refine ⟨by norm_num [exampleElem, KlinePlotPoint.new, KlineData.new,
    KlinePlotPoint.set_box_width, KlinePlotPoint.set_whisker_width],
    eq_false ?_, eq_false ?_, ?_⟩ <;>
  · rw [add_shapes_eq]
    norm_num [KlinePlotPoint.box_rect_shape, KlinePlotPoint.center_line_shape,
      KlinePlotPoint.upper_whisker_shapes, KlinePlotPoint.lower_whisker_shapes,
      KlinePlotPoint.effective_style, line_between, KlinePlotPoint.point_at,
      exampleElem, KlinePlotPoint.new, KlineData.new, KlinePlotPoint.set_box_width,
      KlinePlotPoint.set_whisker_width, idTransform, idHighlight, Stroke.new,
      Color32.TRANSPARENT, Orientation.default, CornerRadius.ZERO,
      List.mem_append, List.mem_cons] <;>
    simp

/-- Claim C2 (amended): the upper whisker is emitted iff `spread.h >
spread.c` (the second field against the fourth); when emitted the whisker
line runs from `point_at (argument, spread.c)` to `point_at (argument,
spread.h)`, and if `box_width > 0` a cap runs between
`point_at (argument ∓ whisker_width/2, spread.h)`; when `h ≤ c` no
upper-whisker line or cap is appended.  Stated as the exact output of
`add_shapes` with the upper-whisker block explicit. -/
theorem kline_C2_upper_whisker (self : KlinePlotPoint)
    (hc : Stroke × Color32 → Stroke × Color32)
    (t : PlotTransform) (hl : Bool) (init : List Shape) :
    self.add_shapes hc t hl init
      = init ++ [self.box_rect_shape hc t hl, self.center_line_shape hc t hl]
          ++ (if self.spread.h > self.spread.c then
                [line_between t (self.effective_style hc hl).1
                  (self.point_at self.argument self.spread.c)
                  (self.point_at self.argument self.spread.h)]
                ++ (if self.box_width > 0 then
                      [line_between t (self.effective_style hc hl).1
                        (self.point_at (self.argument - self.whisker_width / 2) self.spread.h)
                        (self.point_at (self.argument + self.whisker_width / 2) self.spread.h)]
                    else [])
              else [])
          ++ self.lower_whisker_shapes hc t hl := by
  rw [add_shapes_eq]; rfl

/-- Claim C3: the lower whisker is emitted iff `spread.l < spread.o`
(the claim's centerLine field `l` against lowerWhisker field `o`); when
emitted the whisker line runs from `point_at (argument, spread.o)` to
`point_at (argument, spread.l)`, and if `box_width > 0` a cap runs between
`point_at (argument ∓ whisker_width/2, spread.l)`; when `l ≥ o` no
lower-whisker line or cap is appended.  Stated as the exact output of
`add_shapes` with the lower-whisker block explicit. -/
theorem kline_C3_lower_whisker (self : KlinePlotPoint)
    (hc : Stroke × Color32 → Stroke × Color32)
    (t : PlotTransform) (hl : Bool) (init : List Shape) :
    self.add_shapes hc t hl init
      = init ++ [self.box_rect_shape hc t hl, self.center_line_shape hc t hl]
          ++ self.upper_whisker_shapes hc t hl
          ++ (if self.spread.l < self.spread.o then
                [line_between t (self.effective_style hc hl).1
                  (self.point_at self.argument self.spread.o)
                  (self.point_at self.argument self.spread.l)]
                ++ (if self.box_width > 0 then
                      [line_between t (self.effective_style hc hl).1
                        (self.point_at (self.argument - self.whisker_width / 2) self.spread.l)
                        (self.point_at (self.argument + self.whisker_width / 2) self.spread.l)]
                    else [])
              else []) := by
  rw [add_shapes_eq]; rfl

/-- Claim C4: for every element, highlight adjustment, transform,
highlighted flag and incoming list, the first primitive appended by
`add_shapes` is the box rectangle whose two logical corners, before
transform mapping, are `point_at (argument - box_width/2, spread.o)` and
`point_at (argument + box_width/2, spread.c)`. -/
theorem kline_C4_box_rect (self : KlinePlotPoint)
    (hc : Stroke × Color32 → Stroke × Color32)
    (t : PlotTransform) (hl : Bool) (init : List Shape) :
    (self.add_shapes hc t hl init)[init.length]?
      = some (Shape.rect
          (t.rect_from_values
            (self.point_at (self.argument - self.box_width / 2) self.spread.o)
            (self.point_at (self.argument + self.box_width / 2) self.spread.c))
          CornerRadius.ZERO (self.effective_style hc hl).2
          (self.effective_style hc hl).1 StrokeKind.Inside) := by
  rw [add_shapes_eq, List.append_assoc, List.append_assoc,
    List.getElem?_append_right (Nat.le_refl init.length)]
  simp [KlinePlotPoint.box_rect_shape]

/-- Claim C5, counterexample: for an element with `h > c` and
`box_width = 0`, `add_shapes` appends exactly 3 primitives (rectangle,
middle line, upper-whisker line without cap), and 3 is not in {2, 4, 6}. -/
theorem kline_C5_counterexample :
    (c5Elem.add_shapes idHighlight idTransform false []).length = 3
      ∧ ((c5Elem.add_shapes idHighlight idTransform false []).length
           ∈ ([2, 4, 6] : List ℕ)) = False := by
  refine ⟨?_, eq_false ?_⟩ <;>
  · rw [add_shapes_eq]
    norm_num [KlinePlotPoint.upper_whisker_shapes, KlinePlotPoint.lower_whisker_shapes,
      c5Elem, KlinePlotPoint.new, KlineData.new, KlinePlotPoint.set_box_width]

/-- Claim C5 (amended): `add_shapes` always appends exactly 2 primitives
(rectangle plus middle line), plus, per visible whisker, 2 more when
`box_width > 0` (line and cap) but only 1 more when `box_width ≤ 0` (line
without cap); the total number appended is always in {2, 3, 4, 5, 6}. -/
theorem kline_C5_shape_count (self : KlinePlotPoint)
    (hc : Stroke × Color32 → Stroke × Color32)
    (t : PlotTransform) (hl : Bool) (init : List Shape) :
    (self.add_shapes hc t hl init).length
        = init.length + 2
          + (if self.spread.h > self.spread.c then
              (if self.box_width > 0 then 2 else 1) else 0)
          + (if self.spread.l < self.spread.o then
              (if self.box_width > 0 then 2 else 1) else 0)
      ∧ ((self.add_shapes hc t hl init).length - init.length)
          ∈ ([2, 3, 4, 5, 6] : List ℕ) := by
  have h : (self.add_shapes hc t hl init).length
      = init.length + 2
        + (if self.spread.h > self.spread.c then
            (if self.box_width > 0 then 2 else 1) else 0)
        + (if self.spread.l < self.spread.o then
            (if self.box_width > 0 then 2 else 1) else 0) := by
    rw [add_shapes_eq]
    simp only [KlinePlotPoint.upper_whisker_shapes, KlinePlotPoint.lower_whisker_shapes]
    split_ifs <;> simp [List.length_append]
  refine ⟨h, ?_⟩
  rw [h]
  split_ifs <;> simp [List.mem_cons] <;> omega

/-- Claim C6: `bounds_min` is the logical point
`point_at (argument - max box_width whisker_width / 2, spread.l)` and
`bounds_max` is `point_at (argument + max box_width whisker_width / 2,
spread.h)` — the bounds use the `l` and `h` values, not the whisker
extremes of the claim's role reading. -/
theorem kline_C6_bounds (self : KlinePlotPoint) :
    self.bounds_min
        = self.point_at (self.argument - max self.box_width self.whisker_width / 2)
            self.spread.l
      ∧ self.bounds_max
        = self.point_at (self.argument + max self.box_width self.whisker_width / 2)
            self.spread.h :=
  ⟨rfl, rfl⟩

/-- Claim C7, counterexample: for the spec's example element the fifth
point of `values_with_ruler` is `⟨5, 20⟩` (value `spread.l = 20`), not the
point at `spread.o = 10` again as the claim states. -/
theorem kline_C7_counterexample :
    ((exampleElem.values_with_ruler)[4]? = some (⟨5, 10⟩ : PlotPoint)) = False
      ∧ (exampleElem.values_with_ruler)[4]? = some (⟨5, 20⟩ : PlotPoint)
      ∧ exampleElem.spread.o = 10 ∧ exampleElem.spread.l = 20 := by
  refine ⟨eq_false ?_, ?_, ?_, ?_⟩ <;>
  · norm_num [KlinePlotPoint.values_with_ruler, KlinePlotPoint.point_at, exampleElem,
      KlinePlotPoint.new, KlineData.new, KlinePlotPoint.set_box_width,
      KlinePlotPoint.set_whisker_width, Orientation.default]

/-- Claim C7 (amended): `values_with_ruler` returns exactly five logical
points, all at the element's argument position, whose value coordinates
are, in this fixed order: `v`, `o`, `c`, `h`, and `l` — the fifth is the
`l` field, not `o` again. -/
theorem kline_C7_ruler_points (self : KlinePlotPoint) :
    self.values_with_ruler
      = [self.point_at self.argument self.spread.v,
         self.point_at self.argument self.spread.o,
         self.point_at self.argument self.spread.c,
         self.point_at self.argument self.spread.h,
         self.point_at self.argument self.spread.l] :=
  rfl

/-- Claim C8: for every element and scale pair, the decimal precision used
by `default_values_format` equals `clamp (⌈-log10 |scale|⌉, 1, 6)` where
`scale` is the component of `dvalue_dpos` selected by orientation (index 0
for Horizontal, index 1 for Vertical, as in `value_axis_scale`), and the
precision always lies in [1, 6]. -/
theorem kline_C8_precision (self : KlinePlotPoint) (s : ℝ × ℝ) :
    self.default_values_format_decimals s
        = clampPrecision ⌈-Real.logb 10 |self.value_axis_scale s|⌉
      ∧ 1 ≤ self.default_values_format_decimals s
      ∧ self.default_values_format_decimals s ≤ 6 := by
  have h : self.default_values_format_decimals s
      = max 1 (min 6 (max 0 ⌈-Real.logb 10 |self.value_axis_scale s|⌉)) := rfl
  rw [h]
  simp only [clampPrecision]
  generalize ⌈-Real.logb 10 |self.value_axis_scale s|⌉ = x
  refine ⟨?_, ?_, ?_⟩ <;> omega

/-- Claim C9: each fluent setter (`set_name`, `set_stroke`, `set_fill`,
`set_box_width`, `set_whisker_width`, `vertical`, `horizontal`) returns an
instance in which exactly the one corresponding field is changed to the
supplied value (the orientation to Vertical/Horizontal for the last two)
and every other field equals its value in the receiver. -/
theorem kline_C9_setters (self : KlinePlotPoint) (n : String) (st : Stroke)
    (f : Color32) (bw ww : ℚ) :
    ((self.set_name n).name = n
      ∧ (self.set_name n).orientation = self.orientation
      ∧ (self.set_name n).argument = self.argument
      ∧ (self.set_name n).spread = self.spread
      ∧ (self.set_name n).box_width = self.box_width
      ∧ (self.set_name n).whisker_width = self.whisker_width
      ∧ (self.set_name n).stroke = self.stroke
      ∧ (self.set_name n).fill = self.fill)
    ∧ ((self.set_stroke st).stroke = st
      ∧ (self.set_stroke st).name = self.name
      ∧ (self.set_stroke st).orientation = self.orientation
      ∧ (self.set_stroke st).argument = self.argument
      ∧ (self.set_stroke st).spread = self.spread
      ∧ (self.set_stroke st).box_width = self.box_width
      ∧ (self.set_stroke st).whisker_width = self.whisker_width
      ∧ (self.set_stroke st).fill = self.fill)
    ∧ ((self.set_fill f).fill = f
      ∧ (self.set_fill f).name = self.name
      ∧ (self.set_fill f).orientation = self.orientation
      ∧ (self.set_fill f).argument = self.argument
      ∧ (self.set_fill f).spread = self.spread
      ∧ (self.set_fill f).box_width = self.box_width
      ∧ (self.set_fill f).whisker_width = self.whisker_width
      ∧ (self.set_fill f).stroke = self.stroke)
    ∧ ((self.set_box_width bw).box_width = bw
      ∧ (self.set_box_width bw).name = self.name
      ∧ (self.set_box_width bw).orientation = self.orientation
      ∧ (self.set_box_width bw).argument = self.argument
      ∧ (self.set_box_width bw).spread = self.spread
      ∧ (self.set_box_width bw).whisker_width = self.whisker_width
      ∧ (self.set_box_width bw).stroke = self.stroke
      ∧ (self.set_box_width bw).fill = self.fill)
    ∧ ((self.set_whisker_width ww).whisker_width = ww
      ∧ (self.set_whisker_width ww).name = self.name
      ∧ (self.set_whisker_width ww).orientation = self.orientation
      ∧ (self.set_whisker_width ww).argument = self.argument
      ∧ (self.set_whisker_width ww).spread = self.spread
      ∧ (self.set_whisker_width ww).box_width = self.box_width
      ∧ (self.set_whisker_width ww).stroke = self.stroke
      ∧ (self.set_whisker_width ww).fill = self.fill)
    ∧ (self.vertical.orientation = Orientation.Vertical
      ∧ self.vertical.name = self.name
      ∧ self.vertical.argument = self.argument
      ∧ self.vertical.spread = self.spread
      ∧ self.vertical.box_width = self.box_width
      ∧ self.vertical.whisker_width = self.whisker_width
      ∧ self.vertical.stroke = self.stroke
      ∧ self.vertical.fill = self.fill)
    ∧ (self.horizontal.orientation = Orientation.Horizontal
      ∧ self.horizontal.name = self.name
      ∧ self.horizontal.argument = self.argument
      ∧ self.horizontal.spread = self.spread
      ∧ self.horizontal.box_width = self.box_width
      ∧ self.horizontal.whisker_width = self.whisker_width
      ∧ self.horizontal.stroke = self.stroke
      ∧ self.horizontal.fill = self.fill) := by
  refine ⟨⟨?_, ?_, ?_, ?_, ?_, ?_, ?_, ?_⟩, ⟨?_, ?_, ?_, ?_, ?_, ?_, ?_, ?_⟩,
    ⟨?_, ?_, ?_, ?_, ?_, ?_, ?_, ?_⟩, ⟨?_, ?_, ?_, ?_, ?_, ?_, ?_, ?_⟩,
    ⟨?_, ?_, ?_, ?_, ?_, ?_, ?_, ?_⟩, ⟨?_, ?_, ?_, ?_, ?_, ?_, ?_, ?_⟩,
    ⟨?_, ?_, ?_, ?_, ?_, ?_, ?_, ?_⟩⟩ <;> rfl

/-- Claim C10: `KlineData.new o h l c v` stores each parameter into the
identically named field, despite the struct literal listing the fields in
the scrambled order `l, o, v, c, h`. -/
theorem kline_C10_new_fields (o h l c v : ℚ) :
    (KlineData.new o h l c v).o = o
      ∧ (KlineData.new o h l c v).h = h
      ∧ (KlineData.new o h l c v).l = l
      ∧ (KlineData.new o h l c v).c = c
      ∧ (KlineData.new o h l c v).v = v :=
  ⟨rfl, rfl, rfl, rfl, rfl⟩

end KlineElem
